import Mathlib

/-!
Shallow embedding of the evaluation / diagnostics pipeline of the
`aygunnajafova/ml-project` repository (text-to-SQL evaluation scripts).

The embedded source files are `find_mismatches.py`, `evaluate_test2.py` and
`load_data.py`.  Python values are modelled as follows:

* a Python `None`-or-list value is `Option (List α)`; Python truthiness of
  such a value (`if xs:`) is `listTruthy`;
* a database row (a Python tuple of scalars) is `List V` for a value type `V`
  with decidable equality; `tuple(row)` on an already-materialised row is the
  identity conversion, preserving column order;
* Python `set(...)` built from rows is a `Finset (List V)`;
* Python float divisions used for rates are modelled over `ℚ`;
* `str.strip()` is `pyStrip`, stripping ASCII whitespace from both ends.
-/

namespace MlProject

/-- Whitespace characters removed by Python's default `str.strip()`,
restricted to the ASCII range (space, tab, newline, carriage return,
vertical tab, form feed). -/
def pyWhitespace (c : Char) : Bool :=
  c = ' ' || c = '\t' || c = '\n' || c = '\r' || c = '\x0b' || c = '\x0c'

/-- Python `s.strip()`: drop leading and trailing whitespace characters. -/
def pyStrip (s : String) : String :=
  ⟨((s.data.dropWhile pyWhitespace).reverse.dropWhile pyWhitespace).reverse⟩

/-- Python truthiness of a `None`-or-list value: `None` and the empty list
are falsy, a non-empty list is truthy. -/
def listTruthy : Option (List α) → Bool
  | none => false
  | some l => !l.isEmpty

variable {V : Type} [DecidableEq V]

/-- Conversion `tuple(row)` applied to a row already materialised as an
ordered list of scalars: the identity, preserving column order
(`find_mismatches.py` lines 134-135). -/
def tuple_of_row (row : List V) : List V := row

/-- The set built by `set(tuple(row) for row in rec) if rec else set()`
(`find_mismatches.py` lines 134-135): a falsy record list (`None` or empty)
yields the empty set, otherwise the finite set of row tuples. -/
def rec_set (rec : Option (List (List V))) : Finset (List V) :=
  if listTruthy rec then ((rec.getD []).map tuple_of_row).toFinset else ∅

/-- The record comparison performed at `find_mismatches.py` lines 134-137:
two record lists compare equal exactly when their `rec_set`s are equal. -/
def compare_records (a b : Option (List (List V))) : Bool :=
  decide (rec_set a = rec_set b)

/-- Written from the spec's words (§4.2), for comparison with `rec_set`:
"treat each Record Set as a set of tuples"; "Empty/absent Record Set is
treated as the empty set"; each row converted to an ordered tuple preserving
column order. -/
def rec_set_spec (rec : Option (List (List V))) : Finset (List V) :=
  (rec.getD []).toFinset

/-! ### Embedding of `find_mismatches.py` `main` (after file loading)

The loaded inputs of one run: the three aligned text files and the three
optional pickled artifacts.  A missing pickle file leaves the corresponding
field `none` (Python `None`). -/

structure Loaded (V : Type) where
  nl_queries : List String
  gold_sql : List String
  model_sql : List String
  gold_records : Option (List (Option (List (List V))))
  model_records : Option (List (Option (List (List V))))
  error_msgs : Option (List String)

/-- Prefix test on strings, via the underlying character lists. -/
def strStartsWith (s p : String) : Bool := decide (p.data <+: s.data)

/-- Length-mismatch failures raised by the asserts at `find_mismatches.py`
lines 106-119, each carrying the two offending lengths. -/
inductive LengthError
  | nlGoldModel (nl gold model : Nat)
  | goldRecords (goldRecords nl : Nat)
  | modelRecords (modelRecords modelSql : Nat)
  | errorMessages (errorMsgs modelSql : Nat)
  deriving DecidableEq

/-- Rendering of each assert's f-string message. -/
def LengthError.message : LengthError → String
  | .nlGoldModel a b c =>
      "Mismatch: " ++ ("NL=" ++ toString a ++ ", Gold=" ++ toString b ++
        ", Model=" ++ toString c)
  | .goldRecords a b =>
      "Mismatch: " ++ ("Gold records=" ++ toString a ++ ", NL queries=" ++ toString b)
  | .modelRecords a b =>
      "Mismatch: " ++ ("Model records=" ++ toString a ++ ", Model SQL=" ++ toString b)
  | .errorMessages a b =>
      "Mismatch: " ++ ("Error messages=" ++ toString a ++ ", Model SQL=" ++ toString b)

/-- The length verification of `find_mismatches.py` lines 106-119.  The
first assert always runs; the three others are guarded by Python truthiness
(`if gold_records:` etc.), so a `None` or empty list skips its check. -/
def verify_lengths (d : Loaded V) : Except LengthError Unit :=
  if ¬ (d.nl_queries.length = d.gold_sql.length ∧
        d.gold_sql.length = d.model_sql.length) then
    .error (.nlGoldModel d.nl_queries.length d.gold_sql.length d.model_sql.length)
  else if listTruthy d.gold_records ∧
      (d.gold_records.getD []).length ≠ d.nl_queries.length then
    .error (.goldRecords (d.gold_records.getD []).length d.nl_queries.length)
  else if listTruthy d.model_records ∧
      (d.model_records.getD []).length ≠ d.model_sql.length then
    .error (.modelRecords (d.model_records.getD []).length d.model_sql.length)
  else if listTruthy d.error_msgs ∧
      (d.error_msgs.getD []).length ≠ d.model_sql.length then
    .error (.errorMessages (d.error_msgs.getD []).length d.model_sql.length)
  else .ok ()

/-- The skip condition of `find_mismatches.py` line 130:
`error_msgs and error_msgs[i] and error_msgs[i].strip()`. -/
def skip_error (error_msgs : Option (List String)) (i : Nat) : Bool :=
  match error_msgs with
  | none => false
  | some msgs =>
      !msgs.isEmpty &&
        (decide (msgs.getD i "" ≠ "") && decide (pyStrip (msgs.getD i "") ≠ ""))

/-- Indices collected into `mismatches` on the record branch
(`find_mismatches.py` lines 124-138): indices not skipped as SQL errors whose
gold and predicted record sets differ. -/
def record_mismatch_indices (n : Nat)
    (gold_records model_records : List (Option (List (List V))))
    (error_msgs : Option (List String)) : List Nat :=
  (List.range n).filter fun i =>
    !skip_error error_msgs i &&
      !compare_records (gold_records.getD i none) (model_records.getD i none)

/-- The complementary "exact record match" category of the same branch:
indices not skipped as SQL errors whose record sets agree. -/
def record_match_indices (n : Nat)
    (gold_records model_records : List (Option (List (List V))))
    (error_msgs : Option (List String)) : List Nat :=
  (List.range n).filter fun i =>
    !skip_error error_msgs i &&
      compare_records (gold_records.getD i none) (model_records.getD i none)

/-- Indices collected into `mismatches` on the fallback branch
(`find_mismatches.py` lines 142-144): whitespace-stripped gold SQL differs
from whitespace-stripped predicted SQL. -/
def sql_mismatch_indices (n : Nat) (gold_sql model_sql : List String) : List Nat :=
  (List.range n).filter fun i =>
    decide (pyStrip (gold_sql.getD i "") ≠ pyStrip (model_sql.getD i ""))

/-- Indices collected into `error_queries` (`find_mismatches.py` lines
147-151): guarded by `if error_msgs:`, an index is an execution error when
its message is non-empty and non-empty after stripping. -/
def error_query_indices (error_msgs : Option (List String)) (n : Nat) : List Nat :=
  match error_msgs with
  | none => []
  | some msgs =>
      if msgs.isEmpty then []
      else (List.range n).filter fun i =>
        decide (msgs.getD i "" ≠ "") && decide (pyStrip (msgs.getD i "") ≠ "")

/-- Which comparison the run used: record comparison or the SQL-string
fallback. -/
inductive CompareMode
  | records
  | sqlStrings
  deriving DecidableEq

/-- The observable outputs of the classification phase of one
`find_mismatches.py` run (lines 123-151, plus the header written at lines
178/188): the comparison mode, the report header title, the total query
count printed at line 153, the index lists, and the warnings printed on the
fallback path (line 141). -/
structure Report where
  mode : CompareMode
  headerTitle : String
  totalQueries : Nat
  mismatchIdx : List Nat
  errorIdx : List Nat
  warnings : List String
  deriving DecidableEq

/-- The branch structure of `find_mismatches.py` lines 124-151 and 177-196:
record comparison when both record lists are truthy, otherwise the
SQL-string fallback with its warning and `SQL MISMATCHES` header. -/
def build_report (d : Loaded V) : Report :=
  let n := d.nl_queries.length
  let errs := error_query_indices d.error_msgs n
  if listTruthy d.gold_records && listTruthy d.model_records then
    let mis := record_mismatch_indices n (d.gold_records.getD [])
      (d.model_records.getD []) d.error_msgs
    { mode := .records, headerTitle := "RECORD MISMATCHES", totalQueries := n,
      mismatchIdx := mis, errorIdx := errs, warnings := [] }
  else
    let mis := sql_mismatch_indices n d.gold_sql d.model_sql
    { mode := .sqlStrings, headerTitle := "SQL MISMATCHES", totalQueries := n,
      mismatchIdx := mis, errorIdx := errs,
      warnings := ["⚠ Records not available. Falling back to SQL string comparison."] }

/-- Failures that abort a `find_mismatches.py` run: a failed length assert
(lines 106-119), or the `ZeroDivisionError` raised by the rate divisions at
lines 156, 159 and 162 when the query list is empty. -/
inductive RunError
  | lengthMismatch (e : LengthError)
  | zeroDivision
  deriving DecidableEq

/-- Rendering of a run failure, as Python displays it. -/
def RunError.message : RunError → String
  | .lengthMismatch e => e.message
  | .zeroDivision => "ZeroDivisionError: division by zero"

/-- Python division over `ℚ`: raises `ZeroDivisionError` on a zero divisor
instead of returning a value. -/
def pyDivQ (a b : ℚ) : Except RunError ℚ :=
  if b = 0 then .error RunError.zeroDivision else .ok (a / b)

/-- The rates of the summary at `find_mismatches.py` lines 153-162; the
printed percentages are these rates times 100. -/
structure SummaryRates where
  matchRate : ℚ
  errorRate : Option ℚ
  deriving DecidableEq

/-- The summary divisions of `find_mismatches.py` lines 153-162: the match
rate `(len(nl_queries) - len(mismatches)) / len(nl_queries)` (lines
156/159) and, when the error-message list is truthy, the error rate
`len(error_queries) / len(nl_queries)` (line 162).  Every division is by
the total query count and raises `ZeroDivisionError` when it is zero. -/
def summary_rates (d : Loaded V) (r : Report) : Except RunError SummaryRates :=
  match pyDivQ ((r.totalQueries : ℚ) - (r.mismatchIdx.length : ℚ))
      (r.totalQueries : ℚ) with
  | .error e => .error e
  | .ok mr =>
      if listTruthy d.error_msgs then
        match pyDivQ (r.errorIdx.length : ℚ) (r.totalQueries : ℚ) with
        | .error e => .error e
        | .ok er => .ok { matchRate := mr, errorRate := some er }
      else .ok { matchRate := mr, errorRate := none }

/-- One run of `find_mismatches.py` `main` after loading: the length asserts
run first; only if they pass are the mismatch list, the error classification
and the summary rates computed, and the summary divisions can still abort
the run with a `ZeroDivisionError` before anything is persisted. -/
def run_find_mismatches (d : Loaded V) :
    Except RunError (Report × SummaryRates) :=
  match verify_lengths d with
  | .error e => .error (.lengthMismatch e)
  | .ok _ =>
      match summary_rates d (build_report d) with
      | .error e => .error e
      | .ok s => .ok (build_report d, s)

/-- Whether a run result is a length failure. -/
def is_length_error : Except RunError (Report × SummaryRates) → Bool
  | .error (RunError.lengthMismatch _) => true
  | .error RunError.zeroDivision => false
  | .ok _ => false

/-- Whether a run result is a completed report. -/
def run_succeeded : Except RunError (Report × SummaryRates) → Bool
  | .error _ => false
  | .ok _ => true

/-- The amended trigger condition for C2: the three text collections differ
in length, or a loaded NON-EMPTY records or error-message list differs in
length from its reference collection. -/
def length_violation (d : Loaded V) : Bool :=
  decide (¬ (d.nl_queries.length = d.gold_sql.length ∧
             d.gold_sql.length = d.model_sql.length)) ||
  (listTruthy d.gold_records &&
    decide ((d.gold_records.getD []).length ≠ d.nl_queries.length)) ||
  (listTruthy d.model_records &&
    decide ((d.model_records.getD []).length ≠ d.model_sql.length)) ||
  (listTruthy d.error_msgs &&
    decide ((d.error_msgs.getD []).length ≠ d.model_sql.length))

/-- Concrete run input with one match, one mismatch and one execution error,
used to instantiate the partition theorem. -/
def c7_input : Loaded ℤ :=
  { nl_queries := ["a", "b", "c"], gold_sql := ["g", "g", "g"],
    model_sql := ["m", "m", "m"],
    gold_records := some [some [[1]], some [[1]], some [[1]]],
    model_records := some [some [[1]], some [[2]], some [[1]]],
    error_msgs := some ["", "", "boom"] }

/-! ### Record previews in the mismatch reports -/

/-- One line of a record preview: a printed row, the
"... (K more rows)" suffix, or the "(empty)" placeholder. -/
inductive PreviewLine (V : Type)
  | row (r : List V)
  | more (k : Nat)
  | emptyMark
  deriving DecidableEq

/-- The row preview emitted for one side of one mismatched example
(`find_mismatches.py` lines 205-211 and 213-219 with bound 10, lines
286-292 and 294-300 with bound 5): for a truthy record list, the first
`bound` rows followed by a "... (K more rows)" suffix when more rows
remain; for a falsy one, the "(empty)" placeholder. -/
def record_preview (bound : Nat) (rec : Option (List (List V))) :
    List (PreviewLine V) :=
  if listTruthy rec then
    (((rec.getD []).take bound).map PreviewLine.row) ++
      (if bound < (rec.getD []).length
        then [PreviewLine.more ((rec.getD []).length - bound)] else [])
  else [PreviewLine.emptyMark]

/-- The preview written to the persisted report file (first 10 rows). -/
def persisted_record_preview (rec : Option (List (List V))) : List (PreviewLine V) :=
  record_preview 10 rec

/-- The preview printed to the console (first 5 rows). -/
def console_record_preview (rec : Option (List (List V))) : List (PreviewLine V) :=
  record_preview 5 rec

/-- The rows shown by a preview, in order. -/
def preview_rows : List (PreviewLine V) → List (List V)
  | [] => []
  | PreviewLine.row r :: rest => r :: preview_rows rest
  | PreviewLine.more _ :: rest => preview_rows rest
  | PreviewLine.emptyMark :: rest => preview_rows rest

/-- The count announced by the first "... (K more rows)" suffix, if any. -/
def preview_more : List (PreviewLine V) → Option Nat
  | [] => none
  | PreviewLine.more k :: _ => some k
  | PreviewLine.row _ :: rest => preview_more rest
  | PreviewLine.emptyMark :: rest => preview_more rest

/-! ### Embedding of `evaluate_test2.py` -/

/-- Modelled from the spec (§3, §4.1): one Execution Outcome per query,
either `Success(RecordSet)` or `Failure(ErrorMessage)`.  The producing code
(`utils.compute_records`) is not under `src/`. -/
inductive Outcome (V : Type)
  | success (records : List (List V))
  | failure (message : String)

/-- Modelled from the spec: how an Execution Outcome is recorded in the
persisted error-message list consumed by `evaluate_test2.py` line 169 — an
empty string for a success, the error text for a failure
(`utils.compute_records` is not under `src/`). -/
def outcome_msg : Outcome V → String
  | .success _ => ""
  | .failure m => m

/-- Whether an Execution Outcome is a `Failure`. -/
def outcome_is_failure : Outcome V → Bool
  | .success _ => false
  | .failure _ => true

/-- The expression at `evaluate_test2.py` line 169:
`sum(1 for msg in error_msgs if msg != "") / len(error_msgs) if error_msgs
else 0`, over `ℚ`; a `None` or empty message list is falsy and yields 0. -/
def error_rate (error_msgs : Option (List String)) : ℚ :=
  match error_msgs with
  | none => 0
  | some msgs =>
      if msgs.isEmpty then 0
      else ((msgs.filter fun m => decide (m ≠ "")).length : ℚ) / (msgs.length : ℚ)

/-- Observable side-effecting steps of `evaluate_test2.py` `main` relevant
to the gold-record cache (lines 119-131) and the per-experiment loop (lines
135 onwards).  Executing the gold queries (`utils.compute_records`) and
dumping the pickle are recorded as abstract actions carrying their input. -/
inductive EvalAction
  | computeGoldRecords (gold_queries : List String)
  | writeGoldCache (gold_queries : List String)
  | evalExperiment (name : String)
  deriving DecidableEq

/-- The cache step at `evaluate_test2.py` lines 119-131: nothing happens
when the cache file exists; otherwise the gold queries are executed and the
result pickled to the cache path. -/
def gold_cache_actions (cache_exists : Bool) (gold_queries : List String) :
    List EvalAction :=
  if cache_exists then []
  else [.computeGoldRecords gold_queries, .writeGoldCache gold_queries]

/-- The action trace of one `evaluate_test2.py` run: the gold-cache step,
then one evaluation per experiment, in order. -/
def evaluate_test2_actions (cache_exists : Bool) (gold_queries : List String)
    (experiments : List String) : List EvalAction :=
  gold_cache_actions cache_exists gold_queries ++
    experiments.map EvalAction.evalExperiment

/-! ### Divergence between the two error tests (C10) -/

/-- The per-message test summed into the error rate at `evaluate_test2.py`
line 169: `msg != ""`. -/
def counted_in_error_rate (msg : String) : Bool := decide (msg ≠ "")

/-- The per-message execution-error test of `find_mismatches.py` lines 130
and 150: `error_msg and error_msg.strip()` as a boolean. -/
def classified_as_error (msg : String) : Bool :=
  decide (msg ≠ "") && decide (pyStrip msg ≠ "")

/-! ### Embedding of `load_data.py` batching and `test2_inference` unpacking -/

/-- The padding token id (`load_data.py` line 14). -/
def PAD_IDX : Nat := 0

/-- Embedding of `pad_sequence(..., batch_first=True, padding_value=PAD_IDX)`: right-pad
every sequence with `PAD_IDX` to the length of the longest one. -/
def pad_sequence (seqs : List (List Nat)) : List (List Nat) :=
  let m := (seqs.map List.length).foldr max 0
  seqs.map fun s => s ++ List.replicate (m - s.length) PAD_IDX

/-- The encoder mask `(encoder_ids != PAD_IDX).long()`
(`load_data.py` lines 126 and 150). -/
def encoder_mask_of (ids : List (List Nat)) : List (List Nat) :=
  ids.map (List.map fun t => if t ≠ PAD_IDX then 1 else 0)

/-- What `T5Dataset.__getitem__` returns for one example: a 2-tuple on the
"test" split, a 4-tuple on every other split (`load_data.py` lines 77-99). -/
inductive DatasetItem
  | testPair (encoder_ids : List Nat) (initial_decoder_token : List Nat)
  | trainQuad (encoder_ids decoder_input_ids decoder_target_ids
      initial_decoder_token : List Nat)
  deriving DecidableEq

/-- Per-example token data of a split; tokenizer output is treated as
already-given data (the tokenizer is an external collaborator). -/
structure ExampleData where
  encoder_ids : List Nat
  decoder_target_ids : List Nat
  deriving DecidableEq

/-- Embedding of `T5Dataset.__getitem__` (`load_data.py` lines 65-99): on the "test"
split the (encoder_ids, initial_decoder_token) pair; otherwise the 4-tuple
whose decoder inputs are `[bos] ++ targets[:-1]`. -/
def t5_getitem (bos : Nat) (split : String) (ex : ExampleData) : DatasetItem :=
  if split = "test" then
    .testPair ex.encoder_ids [bos]
  else
    .trainQuad ex.encoder_ids (bos :: ex.decoder_target_ids.dropLast)
      ex.decoder_target_ids [bos]

/-- A collated batch as yielded by the dataloader: the 5-tuple produced by
`normal_collate_fn` or the 3-tuple produced by `test_collate_fn`. -/
inductive Batch
  | normal (encoder_ids encoder_mask decoder_inputs decoder_targets
      initial_decoder_inputs : List (List Nat))
  | test (encoder_ids encoder_mask initial_decoder_inputs : List (List Nat))
  deriving DecidableEq

/-- The item indexing `item[0] .. item[3]` performed by `normal_collate_fn`
(`load_data.py` lines 117-120): succeeds on 4-tuples, raises on a 2-tuple
(modelled as `none`). -/
def extract_quads : List DatasetItem →
    Option (List (List Nat × List Nat × List Nat × List Nat))
  | [] => some []
  | DatasetItem.trainQuad e di dt init :: rest =>
      (extract_quads rest).map fun qs => (e, di, dt, init) :: qs
  | DatasetItem.testPair _ _ :: rest => none

/-- Embedding of `normal_collate_fn` (`load_data.py` lines 101-130): pad the encoder
ids, decoder inputs and decoder targets, build the encoder mask, stack the
initial decoder tokens, and return the 5-tuple. -/
def normal_collate_fn (batch : List DatasetItem) : Option Batch :=
  (extract_quads batch).map fun quads =>
    let encoder_ids := pad_sequence (quads.map fun q => q.1)
    Batch.normal encoder_ids (encoder_mask_of encoder_ids)
      (pad_sequence (quads.map fun q => q.2.1))
      (pad_sequence (quads.map fun q => q.2.2.1))
      (quads.map fun q => q.2.2.2)

/-- Embedding of `test_collate_fn` (`load_data.py` lines 132-154): indexes only
`item[0]` and `item[1]`, so it accepts both item shapes, and returns the
3-tuple. -/
def test_collate_fn (batch : List DatasetItem) : Option Batch :=
  let pairs := batch.map fun it =>
    match it with
    | DatasetItem.testPair e init => (e, init)
    | DatasetItem.trainQuad e di _ _ => (e, di)
  let encoder_ids := pad_sequence (pairs.map Prod.fst)
  some (Batch.test encoder_ids (encoder_mask_of encoder_ids)
    (pairs.map Prod.snd))

/-- The collate choice of `get_dataloader` (`load_data.py` line 160):
`normal_collate_fn if split != "test" else test_collate_fn`. -/
def collate_for_split (split : String) (batch : List DatasetItem) : Option Batch :=
  if split ≠ "test" then normal_collate_fn batch else test_collate_fn batch

/-- The unpacking `encoder_input, encoder_mask, initial_decoder_inputs =
batch` at `evaluate_test2.py` line 44: succeeds only on a 3-tuple batch; a
5-tuple raises ValueError, modelled as `none`. -/
def test2_inference_unpack :
    Batch → Option (List (List Nat) × List (List Nat) × List (List Nat))
  | Batch.test e m init => some (e, m, init)
  | Batch.normal _ _ _ _ _ => none

/-! ### Theorems -/

theorem map_tuple_of_row (l : List (List V)) : l.map tuple_of_row = l := by
  induction l with
  | nil => rfl
  | cons x xs ih => simp [tuple_of_row, ih]

theorem rec_set_eq_spec (rec : Option (List (List V))) :
    rec_set rec = rec_set_spec rec := by
  cases rec with
  | none => simp [rec_set, rec_set_spec, listTruthy]
  | some l =>
    cases l with
    | nil => simp [rec_set, rec_set_spec, listTruthy]
    | cons x xs => simp [rec_set, rec_set_spec, listTruthy, map_tuple_of_row, tuple_of_row]

/-- C1: the Record Comparator reports two Record Sets equal iff their sets of
row-tuples (rows converted to ordered tuples, `None` mapped to the empty set)
are equal. -/
theorem c1_compare_records_iff_spec_sets (a b : Option (List (List V))) :
    compare_records a b = true ↔ rec_set_spec a = rec_set_spec b := by
  rw [compare_records, rec_set_eq_spec, rec_set_eq_spec]
  exact decide_eq_true_iff

theorem c1_compare_records_iff_spec_sets_witness :
    compare_records (some [[(1 : ℤ)], [2]]) (some [[2], [1], [2]]) = true ↔
      rec_set_spec (some [[(1 : ℤ)], [2]]) = rec_set_spec (some [[2], [1], [2]]) :=
  c1_compare_records_iff_spec_sets _ _

/-- C6: the Record Comparator is insensitive to row order and duplicate
counts: if a list of rows is replaced by any rearrangement or duplication
with the same row membership, comparison against any other Record Set is
unchanged. -/
theorem c6_compare_records_order_insensitive
    (a a' : List (List V)) (h : a'.toFinset = a.toFinset)
    (b : Option (List (List V))) :
    compare_records (some a') b = compare_records (some a) b := by
  have hset : rec_set (some a') = rec_set (some a) := by
    rw [rec_set_eq_spec, rec_set_eq_spec]
    simpa [rec_set_spec] using h
  simp [compare_records, hset]

theorem c6_compare_records_order_insensitive_witness :
    compare_records (some [[(2 : ℤ)], [1]]) (some [[(1 : ℤ)], [2]]) =
      compare_records (some [[(1 : ℤ)], [2]]) (some [[(1 : ℤ)], [2]]) ∧
    compare_records (some [[(2 : ℤ)], [1]]) (some [[(1 : ℤ)], [2]]) = true :=
  ⟨c6_compare_records_order_insensitive [[(1 : ℤ)], [2]] [[(2 : ℤ)], [1]]
      (by decide) (some [[(1 : ℤ)], [2]]), by decide⟩

theorem strStartsWith_append (p t : String) : strStartsWith (p ++ t) p = true := by
  simp [strStartsWith, String.data_append]

/-- Every length failure's rendered message begins with "Mismatch: ". -/
theorem length_error_message_descriptive (e : LengthError) :
    strStartsWith e.message "Mismatch: " = true := by
  cases e <;> exact strStartsWith_append _ _

theorem not_and_of_band_eq_false {b : Bool} {p : Prop} [Decidable p]
    (h : (b && decide p) = false) : ¬ (b = true ∧ p) := by
  intro hc
  rw [hc.1, decide_eq_true hc.2] at h
  exact absurd h (by simp)

theorem length_violation_eq_false_of_verify_ok (d : Loaded V)
    (h : verify_lengths d = .ok ()) : length_violation d = false := by
  unfold verify_lengths at h
  split_ifs at h with h1 h2 h3 h4
  all_goals try simp at h
  unfold length_violation
  have e1 : decide (¬ (d.nl_queries.length = d.gold_sql.length ∧
      d.gold_sql.length = d.model_sql.length)) = false :=
    decide_eq_false (not_not_intro h1)
  have e2 : (listTruthy d.gold_records &&
      decide ((d.gold_records.getD []).length ≠ d.nl_queries.length)) = false := by
    rcases not_and_or.mp h2 with hb | hl
    · simp only [Bool.not_eq_true] at hb
      simp [hb]
    · simp [not_not.mp hl]
  have e3 : (listTruthy d.model_records &&
      decide ((d.model_records.getD []).length ≠ d.model_sql.length)) = false := by
    rcases not_and_or.mp h3 with hb | hl
    · simp only [Bool.not_eq_true] at hb
      simp [hb]
    · simp [not_not.mp hl]
  have e4 : (listTruthy d.error_msgs &&
      decide ((d.error_msgs.getD []).length ≠ d.model_sql.length)) = false := by
    rcases not_and_or.mp h4 with hb | hl
    · simp only [Bool.not_eq_true] at hb
      simp [hb]
    · simp [not_not.mp hl]
  rw [e1, e2, e3, e4]
  rfl

theorem verify_ok_of_no_length_violation (d : Loaded V)
    (h : length_violation d = false) : verify_lengths d = .ok () := by
  unfold length_violation at h
  simp only [Bool.or_eq_false_iff] at h
  obtain ⟨⟨⟨ha, hb⟩, hc⟩, hd⟩ := h
  unfold verify_lengths
  rw [if_neg (of_decide_eq_false ha), if_neg (not_and_of_band_eq_false hb),
    if_neg (not_and_of_band_eq_false hc), if_neg (not_and_of_band_eq_false hd)]

/-- C2 (amended): if the NL, gold-SQL and predicted-SQL collections are not
all the same length, or a loaded non-empty records or error-message list
differs in length from its reference collection, the run fails with a
length-mismatch error whose message starts with "Mismatch: ", before any
mismatch list, error classification or rate is produced. -/
theorem c2_run_fails_on_length_violation (d : Loaded V)
    (h : length_violation d = true) :
    is_length_error (run_find_mismatches d) = true ∧
    ∀ e, run_find_mismatches d = .error e →
      strStartsWith e.message "Mismatch: " = true := by
  cases hv : verify_lengths d with
  | error e0 =>
      have hrun : run_find_mismatches d = .error (.lengthMismatch e0) := by
        unfold run_find_mismatches
        rw [hv]
      refine ⟨by rw [hrun]; rfl, ?_⟩
      intro e he
      rw [hrun] at he
      cases he
      exact length_error_message_descriptive e0
  | ok u =>
      cases u
      have hf := length_violation_eq_false_of_verify_ok d hv
      rw [hf] at h
      exact absurd h (by simp)

theorem c2_run_fails_on_length_violation_witness :
    length_violation (V := ℤ)
      { nl_queries := ["a", "b"], gold_sql := ["a"], model_sql := ["a"],
        gold_records := none, model_records := none, error_msgs := none } = true ∧
    is_length_error (run_find_mismatches (V := ℤ)
      { nl_queries := ["a", "b"], gold_sql := ["a"], model_sql := ["a"],
        gold_records := none, model_records := none, error_msgs := none }) = true :=
  ⟨by decide, (c2_run_fails_on_length_violation _ (by decide)).1⟩

/-- C2 counterexample to the claim as stated: a loaded (but empty) gold
records list whose length differs from the NL list does not make the run
fail — the truthiness guard `if gold_records:` skips the assert and the run
completes with a report. -/
theorem c2_counterexample :
    run_succeeded (run_find_mismatches (V := ℤ)
      { nl_queries := ["q"], gold_sql := ["q"], model_sql := ["q"],
        gold_records := some [], model_records := none, error_msgs := none }) = true ∧
    ((some ([] : List (Option (List (List ℤ))))).getD []).length ≠
      (["q"] : List String).length := by
  decide

theorem listTruthy_some_of_ne_nil (l : List α) (h : l ≠ []) :
    listTruthy (some l) = true := by
  cases l with
  | nil => exact absurd rfl h
  | cons x xs => rfl

theorem build_report_fallback (d : Loaded V)
    (hb : (listTruthy d.gold_records && listTruthy d.model_records) = false) :
    build_report d =
      { mode := .sqlStrings, headerTitle := "SQL MISMATCHES",
        totalQueries := d.nl_queries.length,
        mismatchIdx := sql_mismatch_indices d.nl_queries.length d.gold_sql d.model_sql,
        errorIdx := error_query_indices d.error_msgs d.nl_queries.length,
        warnings := ["⚠ Records not available. Falling back to SQL string comparison."] } := by
  unfold build_report
  rw [hb]
  simp

theorem build_report_records (d : Loaded V)
    (hb : (listTruthy d.gold_records && listTruthy d.model_records) = true) :
    build_report d =
      { mode := .records, headerTitle := "RECORD MISMATCHES",
        totalQueries := d.nl_queries.length,
        mismatchIdx := record_mismatch_indices d.nl_queries.length
          (d.gold_records.getD []) (d.model_records.getD []) d.error_msgs,
        errorIdx := error_query_indices d.error_msgs d.nl_queries.length,
        warnings := [] } := by
  unfold build_report
  rw [hb]
  simp

theorem summary_rates_ok (d : Loaded V) (r : Report)
    (h : (r.totalQueries : ℚ) ≠ 0) :
    summary_rates d r = .ok
      { matchRate := ((r.totalQueries : ℚ) - (r.mismatchIdx.length : ℚ)) /
          (r.totalQueries : ℚ),
        errorRate := if listTruthy d.error_msgs then
          some ((r.errorIdx.length : ℚ) / (r.totalQueries : ℚ)) else none } := by
  unfold summary_rates pyDivQ
  rw [if_neg h]
  have hN : r.totalQueries ≠ 0 := by
    intro hh
    exact h (by rw [hh]; simp)
  cases hE : listTruthy d.error_msgs with
  | false => simp [hE]
  | true => simp [hE, hN]

/-- C5 (amended): when gold records or model records are missing and at
least one query is loaded, the run still completes (no crash), emits the
explicit fallback warning, uses SQL-string comparison at every index
(whitespace-stripped gold versus predicted SQL), reports totals and a match
rate, and the persisted report's header says "SQL MISMATCHES". -/
theorem c5_fallback_reports_sql_comparison (d : Loaded V)
    (hne : d.nl_queries ≠ [])
    (hmiss : d.gold_records = none ∨ d.model_records = none)
    (hok : length_violation d = false) :
    (∃ s, run_find_mismatches d = .ok (build_report d, s) ∧
      s.matchRate = ((d.nl_queries.length : ℚ) -
        (((build_report d).mismatchIdx).length : ℚ)) / (d.nl_queries.length : ℚ)) ∧
    (build_report d).mode = CompareMode.sqlStrings ∧
    (build_report d).headerTitle = "SQL MISMATCHES" ∧
    (build_report d).warnings =
      ["⚠ Records not available. Falling back to SQL string comparison."] ∧
    (build_report d).totalQueries = d.nl_queries.length ∧
    (build_report d).mismatchIdx =
      sql_mismatch_indices d.nl_queries.length d.gold_sql d.model_sql ∧
    (∀ i, i < d.nl_queries.length →
      (i ∈ (build_report d).mismatchIdx ↔
        pyStrip (d.gold_sql.getD i "") ≠ pyStrip (d.model_sql.getD i ""))) := by
  have hb : (listTruthy d.gold_records && listTruthy d.model_records) = false := by
    rcases hmiss with h | h <;> simp [h, listTruthy]
  have hbr := build_report_fallback d hb
  have h0 : d.nl_queries.length ≠ 0 := fun h0 => hne (List.length_eq_zero.mp h0)
  have hq : ((d.nl_queries.length : ℚ)) ≠ 0 := Nat.cast_ne_zero.mpr h0
  have htot : (build_report d).totalQueries = d.nl_queries.length := by rw [hbr]
  have hqr : (((build_report d).totalQueries : ℚ)) ≠ 0 := by rw [htot]; exact hq
  have hsum := summary_rates_ok d (build_report d) hqr
  have hrun : run_find_mismatches d = .ok (build_report d,
      { matchRate := (((build_report d).totalQueries : ℚ) -
          (((build_report d).mismatchIdx).length : ℚ)) /
            (((build_report d).totalQueries : ℚ)),
        errorRate := if listTruthy d.error_msgs then
          some ((((build_report d).errorIdx).length : ℚ) /
            (((build_report d).totalQueries : ℚ))) else none }) := by
    unfold run_find_mismatches
    rw [verify_ok_of_no_length_violation d hok, hsum]
  refine ⟨⟨_, hrun, by rw [htot]⟩, ?_, ?_, ?_, ?_, ?_, ?_⟩
  · rw [hbr]
  · rw [hbr]
  · rw [hbr]
  · rw [hbr]
  · rw [hbr]
  · intro i hi
    rw [hbr]
    simp [sql_mismatch_indices, List.mem_filter, List.mem_range, hi]

theorem c5_fallback_reports_sql_comparison_witness :
    (["a", "b"] : List String) ≠ [] ∧
    ((none : Option (List (Option (List (List ℤ))))) = none ∨
      (none : Option (List (Option (List (List ℤ))))) = none) ∧
    length_violation (V := ℤ)
      { nl_queries := ["a", "b"], gold_sql := ["x", "y"], model_sql := ["x", "z"],
        gold_records := none, model_records := none, error_msgs := none } = false ∧
    (build_report (V := ℤ)
      { nl_queries := ["a", "b"], gold_sql := ["x", "y"], model_sql := ["x", "z"],
        gold_records := none, model_records := none, error_msgs := none }).headerTitle =
      "SQL MISMATCHES" ∧
    ((1 : Nat) ∈ (build_report (V := ℤ)
      { nl_queries := ["a", "b"], gold_sql := ["x", "y"], model_sql := ["x", "z"],
        gold_records := none, model_records := none, error_msgs := none }).mismatchIdx ↔
      pyStrip ((["x", "y"] : List String).getD 1 "") ≠
        pyStrip ((["x", "z"] : List String).getD 1 "")) := by
  refine ⟨by decide, Or.inl rfl, by decide, ?_, ?_⟩
  · exact (c5_fallback_reports_sql_comparison _ (by decide) (Or.inl rfl)
      (by decide)).2.2.1
  · exact (c5_fallback_reports_sql_comparison _ (by decide) (Or.inl rfl)
      (by decide)).2.2.2.2.2.2 1 (by decide)

/-- C5 counterexample to the claim as stated: with an empty (but loadable)
dataset and missing record pickles — a configuration that reaches the
fallback path — the match-rate division at `find_mismatches.py` line 159
divides by zero, so the run aborts with a `ZeroDivisionError` before
reporting a rate or persisting anything, instead of degrading gracefully. -/
theorem c5_counterexample :
    Loaded.gold_records (V := ℤ)
      { nl_queries := [], gold_sql := [], model_sql := [],
        gold_records := none, model_records := none, error_msgs := none } = none ∧
    run_find_mismatches (V := ℤ)
      { nl_queries := [], gold_sql := [], model_sql := [],
        gold_records := none, model_records := none, error_msgs := none } =
      .error RunError.zeroDivision :=
  ⟨rfl, rfl⟩

/-- C7: with gold records, model records and error messages all available,
the indices are partitioned into three disjoint categories: execution error
(the error list), record mismatch (the mismatch list), exact record match;
every index below the total is in exactly one. -/
theorem c7_partition_disjoint (d : Loaded V)
    (gr mr : List (Option (List (List V)))) (em : List String)
    (hg : d.gold_records = some gr) (hm : d.model_records = some mr)
    (he : d.error_msgs = some em)
    (hgne : gr ≠ []) (hmne : mr ≠ []) (hene : em ≠ []) :
    (build_report d).mode = CompareMode.records ∧
    ∀ i, i < d.nl_queries.length →
      ((i ∈ (build_report d).errorIdx ∧ i ∉ (build_report d).mismatchIdx ∧
        i ∉ record_match_indices d.nl_queries.length gr mr d.error_msgs) ∨
       (i ∉ (build_report d).errorIdx ∧ i ∈ (build_report d).mismatchIdx ∧
        i ∉ record_match_indices d.nl_queries.length gr mr d.error_msgs) ∨
       (i ∉ (build_report d).errorIdx ∧ i ∉ (build_report d).mismatchIdx ∧
        i ∈ record_match_indices d.nl_queries.length gr mr d.error_msgs)) := by
  have hb : (listTruthy d.gold_records && listTruthy d.model_records) = true := by
    rw [hg, hm, listTruthy_some_of_ne_nil gr hgne, listTruthy_some_of_ne_nil mr hmne]
    rfl
  rw [build_report_records d hb]
  refine ⟨rfl, ?_⟩
  intro i hi
  have hemE : em.isEmpty = false := by
    cases em with
    | nil => exact absurd rfl hene
    | cons x xs => rfl
  have herrdef : error_query_indices (some em) d.nl_queries.length =
      (if em.isEmpty then []
       else (List.range d.nl_queries.length).filter fun j =>
         decide (em.getD j "" ≠ "") && decide (pyStrip (em.getD j "") ≠ "")) := rfl
  have hskipdef : skip_error (some em) i =
      (!em.isEmpty &&
        (decide (em.getD i "" ≠ "") && decide (pyStrip (em.getD i "") ≠ ""))) := rfl
  have herr : i ∈ error_query_indices d.error_msgs d.nl_queries.length ↔
      (decide (em.getD i "" ≠ "") && decide (pyStrip (em.getD i "") ≠ "")) = true := by
    rw [he, herrdef, hemE]
    simp [List.mem_filter, List.mem_range, hi]
  have hskip : skip_error d.error_msgs i =
      (decide (em.getD i "" ≠ "") && decide (pyStrip (em.getD i "") ≠ "")) := by
    rw [he, hskipdef, hemE]
    simp
  have hgetg : d.gold_records.getD [] = gr := by rw [hg]; rfl
  have hgetm : d.model_records.getD [] = mr := by rw [hm]; rfl
  have hmis : i ∈ record_mismatch_indices d.nl_queries.length
      (d.gold_records.getD []) (d.model_records.getD []) d.error_msgs ↔
      (!skip_error d.error_msgs i &&
        !compare_records (gr.getD i none) (mr.getD i none)) = true := by
    unfold record_mismatch_indices
    rw [hgetg, hgetm]
    simp [List.mem_filter, List.mem_range, hi]
  have hmat : i ∈ record_match_indices d.nl_queries.length gr mr d.error_msgs ↔
      (!skip_error d.error_msgs i &&
        compare_records (gr.getD i none) (mr.getD i none)) = true := by
    unfold record_match_indices
    simp [List.mem_filter, List.mem_range, hi]
  rw [herr, hmis, hmat, hskip]
  cases hE : (decide (em.getD i "" ≠ "") && decide (pyStrip (em.getD i "") ≠ "")) with
  | true => exact Or.inl (by simp)
  | false =>
      cases hC : compare_records (gr.getD i none) (mr.getD i none) with
      | true => exact Or.inr (Or.inr (by simp [hC]))
      | false => exact Or.inr (Or.inl (by simp [hC]))

theorem c7_partition_disjoint_witness :
    (build_report c7_input).mode = CompareMode.records ∧
    (((1 : Nat) ∈ (build_report c7_input).errorIdx ∧
        (1 : Nat) ∉ (build_report c7_input).mismatchIdx ∧
        (1 : Nat) ∉ record_match_indices c7_input.nl_queries.length
          [some [[1]], some [[1]], some [[1]]] [some [[1]], some [[2]], some [[1]]]
          c7_input.error_msgs) ∨
     ((1 : Nat) ∉ (build_report c7_input).errorIdx ∧
        (1 : Nat) ∈ (build_report c7_input).mismatchIdx ∧
        (1 : Nat) ∉ record_match_indices c7_input.nl_queries.length
          [some [[1]], some [[1]], some [[1]]] [some [[1]], some [[2]], some [[1]]]
          c7_input.error_msgs) ∨
     ((1 : Nat) ∉ (build_report c7_input).errorIdx ∧
        (1 : Nat) ∉ (build_report c7_input).mismatchIdx ∧
        (1 : Nat) ∈ record_match_indices c7_input.nl_queries.length
          [some [[1]], some [[1]], some [[1]]] [some [[1]], some [[2]], some [[1]]]
          c7_input.error_msgs)) := by
  refine ⟨?_, ?_⟩
  · exact (c7_partition_disjoint c7_input _ _ _ rfl rfl rfl
      (by decide) (by decide) (by decide)).1
  · exact (c7_partition_disjoint c7_input _ _ _ rfl rfl rfl
      (by decide) (by decide) (by decide)).2 1 (by decide)

theorem preview_rows_map_row_append (l : List (List V)) (rest : List (PreviewLine V)) :
    preview_rows (l.map PreviewLine.row ++ rest) = l ++ preview_rows rest := by
  induction l with
  | nil => rfl
  | cons x xs ih => simp [preview_rows, ih]

theorem preview_more_map_row_append (l : List (List V)) (rest : List (PreviewLine V)) :
    preview_more (l.map PreviewLine.row ++ rest) = preview_more rest := by
  induction l with
  | nil => rfl
  | cons x xs ih => simp [preview_more, ih]

theorem preview_rows_record_preview (bound : Nat) (rec : Option (List (List V))) :
    preview_rows (record_preview bound rec) = (rec.getD []).take bound := by
  unfold record_preview
  cases hb : listTruthy rec with
  | false =>
      have : rec.getD [] = [] := by
        cases rec with
        | none => rfl
        | some l =>
            cases l with
            | nil => rfl
            | cons x xs => simp [listTruthy] at hb
      simp [this, preview_rows]
  | true =>
      rw [if_pos rfl, preview_rows_map_row_append]
      split_ifs <;> simp [preview_rows]

theorem preview_more_record_preview (bound : Nat) (rec : Option (List (List V))) :
    preview_more (record_preview bound rec) =
      (if bound < (rec.getD []).length
        then some ((rec.getD []).length - bound) else none) := by
  unfold record_preview
  cases hb : listTruthy rec with
  | false =>
      have : rec.getD [] = [] := by
        cases rec with
        | none => rfl
        | some l =>
            cases l with
            | nil => rfl
            | cons x xs => simp [listTruthy] at hb
      simp [this, preview_more]
  | true =>
      rw [if_pos rfl, preview_more_map_row_append]
      split_ifs <;> simp [preview_more]

/-- C8: the persisted report previews at most the first 10 rows of a side
and the console at most the first 5; whenever the side has more rows than
the bound, a "... (K more rows)" suffix is present with K equal to the row
count minus the bound, and otherwise no suffix appears. -/
theorem c8_preview_bounds (rec : Option (List (List V))) :
    preview_rows (persisted_record_preview rec) = (rec.getD []).take 10 ∧
    (preview_rows (persisted_record_preview rec)).length ≤ 10 ∧
    preview_more (persisted_record_preview rec) =
      (if 10 < (rec.getD []).length
        then some ((rec.getD []).length - 10) else none) ∧
    preview_rows (console_record_preview rec) = (rec.getD []).take 5 ∧
    (preview_rows (console_record_preview rec)).length ≤ 5 ∧
    preview_more (console_record_preview rec) =
      (if 5 < (rec.getD []).length
        then some ((rec.getD []).length - 5) else none) := by
  refine ⟨preview_rows_record_preview 10 rec, ?_,
    preview_more_record_preview 10 rec,
    preview_rows_record_preview 5 rec, ?_,
    preview_more_record_preview 5 rec⟩
  · unfold persisted_record_preview
    rw [preview_rows_record_preview]
    exact (List.length_take 10 _).le.trans (min_le_left _ _)
  · unfold console_record_preview
    rw [preview_rows_record_preview]
    exact (List.length_take 5 _).le.trans (min_le_left _ _)

theorem c8_preview_bounds_witness :
    preview_rows (persisted_record_preview
      (some [[(0 : ℤ)], [1], [2], [3], [4], [5], [6]])) =
      ([[(0 : ℤ)], [1], [2], [3], [4], [5], [6]]).take 10 ∧
    (preview_rows (persisted_record_preview
      (some [[(0 : ℤ)], [1], [2], [3], [4], [5], [6]]))).length ≤ 10 ∧
    preview_more (persisted_record_preview
      (some [[(0 : ℤ)], [1], [2], [3], [4], [5], [6]])) =
      (if 10 < ([[(0 : ℤ)], [1], [2], [3], [4], [5], [6]]).length
        then some (([[(0 : ℤ)], [1], [2], [3], [4], [5], [6]]).length - 10) else none) ∧
    preview_rows (console_record_preview
      (some [[(0 : ℤ)], [1], [2], [3], [4], [5], [6]])) =
      ([[(0 : ℤ)], [1], [2], [3], [4], [5], [6]]).take 5 ∧
    (preview_rows (console_record_preview
      (some [[(0 : ℤ)], [1], [2], [3], [4], [5], [6]]))).length ≤ 5 ∧
    preview_more (console_record_preview
      (some [[(0 : ℤ)], [1], [2], [3], [4], [5], [6]])) =
      (if 5 < ([[(0 : ℤ)], [1], [2], [3], [4], [5], [6]]).length
        then some (([[(0 : ℤ)], [1], [2], [3], [4], [5], [6]]).length - 5) else none) := by
  have h := c8_preview_bounds (V := ℤ) (some [[0], [1], [2], [3], [4], [5], [6]])
  simpa using h

theorem error_rate_some (msgs : List String) :
    error_rate (some msgs) =
      if msgs.isEmpty then 0
      else ((msgs.filter fun m => decide (m ≠ "")).length : ℚ) / (msgs.length : ℚ) := rfl

theorem length_filter_msg_ne_empty (outs : List (Outcome V))
    (h : ∀ o ∈ outs, outcome_is_failure o = true → outcome_msg o ≠ "") :
    ((outs.map outcome_msg).filter fun m => decide (m ≠ "")).length =
      (outs.filter outcome_is_failure).length := by
  induction outs with
  | nil => rfl
  | cons o rest ih =>
      have hrest := fun o ho => h o (List.mem_cons_of_mem _ ho)
      have ih2 := ih hrest
      simp only [decide_not] at ih2
      cases o with
      | success r => simp [outcome_msg, outcome_is_failure, ih2]
      | failure m =>
          have hm : m ≠ "" := h (.failure m) (List.mem_cons_self _ _) rfl
          simp [outcome_msg, outcome_is_failure, hm, ih2]

/-- C4: the reported error rate equals the fraction of indices whose
Execution Outcome is a `Failure` (recorded as a non-empty error message),
over the full message list, and it is 0 when the message list is empty or
absent. -/
theorem c4_error_rate_counts_failures (outs : List (Outcome V))
    (h : ∀ o ∈ outs, outcome_is_failure o = true → outcome_msg o ≠ "") :
    error_rate (some (outs.map outcome_msg)) =
      ((outs.filter outcome_is_failure).length : ℚ) / (outs.length : ℚ) ∧
    error_rate (some []) = 0 ∧ error_rate none = 0 := by
  refine ⟨?_, rfl, rfl⟩
  cases houts : outs with
  | nil => simp [error_rate]
  | cons o rest =>
      rw [error_rate_some]
      have hne : ((o :: rest).map outcome_msg).isEmpty = false := rfl
      rw [if_neg (by rw [hne]; exact Bool.false_ne_true)]
      rw [← houts, length_filter_msg_ne_empty outs h, List.length_map]

theorem c4_error_rate_counts_failures_witness :
    (∀ o ∈ [Outcome.success (V := ℤ) [[1]], Outcome.failure "no such column"],
      outcome_is_failure o = true → outcome_msg o ≠ "") ∧
    error_rate (some ([Outcome.success (V := ℤ) [[1]],
        Outcome.failure "no such column"].map outcome_msg)) =
      (([Outcome.success (V := ℤ) [[1]],
        Outcome.failure "no such column"].filter outcome_is_failure).length : ℚ) /
        (([Outcome.success (V := ℤ) [[1]], Outcome.failure "no such column"]).length : ℚ) :=
  ⟨by decide, (c4_error_rate_counts_failures _ (by decide)).1⟩

/-- C9: gold outcomes are computed and persisted only when the cache
artifact is absent — with an existing cache the trace holds no computation
and no write; without one, the gold queries are executed once and the cache
written once, both before any experiment is evaluated. -/
theorem c9_gold_cache_policy (gq exps : List String) :
    evaluate_test2_actions true gq exps = exps.map EvalAction.evalExperiment ∧
    evaluate_test2_actions false gq exps =
      EvalAction.computeGoldRecords gq :: EvalAction.writeGoldCache gq ::
        exps.map EvalAction.evalExperiment ∧
    (evaluate_test2_actions true gq exps).count (EvalAction.computeGoldRecords gq) = 0 ∧
    (evaluate_test2_actions true gq exps).count (EvalAction.writeGoldCache gq) = 0 ∧
    (evaluate_test2_actions false gq exps).count (EvalAction.computeGoldRecords gq) = 1 ∧
    (evaluate_test2_actions false gq exps).count (EvalAction.writeGoldCache gq) = 1 := by
  have hmap0 : ∀ a : EvalAction, (∀ e, a ≠ EvalAction.evalExperiment e) →
      (exps.map EvalAction.evalExperiment).count a = 0 := by
    intro a ha
    rw [List.count_eq_zero]
    intro hmem
    obtain ⟨e, _, he⟩ := List.mem_map.mp hmem
    exact ha e he.symm
  refine ⟨rfl, rfl, ?_, ?_, ?_, ?_⟩
  · exact hmap0 _ (fun e h => by cases h)
  · exact hmap0 _ (fun e h => by cases h)
  · show (EvalAction.computeGoldRecords gq :: EvalAction.writeGoldCache gq ::
      exps.map EvalAction.evalExperiment).count (EvalAction.computeGoldRecords gq) = 1
    rw [List.count_cons_self, List.count_cons_of_ne (by intro h; cases h),
      hmap0 _ (fun e h => by cases h)]
  · show (EvalAction.computeGoldRecords gq :: EvalAction.writeGoldCache gq ::
      exps.map EvalAction.evalExperiment).count (EvalAction.writeGoldCache gq) = 1
    rw [List.count_cons_of_ne (by intro h; cases h), List.count_cons_self,
      hmap0 _ (fun e h => by cases h)]

theorem c9_gold_cache_policy_witness :
    evaluate_test2_actions true ["SELECT 1"] ["exp1"] =
      (["exp1"] : List String).map EvalAction.evalExperiment ∧
    evaluate_test2_actions false ["SELECT 1"] ["exp1"] =
      EvalAction.computeGoldRecords ["SELECT 1"] ::
        EvalAction.writeGoldCache ["SELECT 1"] ::
        (["exp1"] : List String).map EvalAction.evalExperiment ∧
    (evaluate_test2_actions true ["SELECT 1"] ["exp1"]).count
      (EvalAction.computeGoldRecords ["SELECT 1"]) = 0 ∧
    (evaluate_test2_actions true ["SELECT 1"] ["exp1"]).count
      (EvalAction.writeGoldCache ["SELECT 1"]) = 0 ∧
    (evaluate_test2_actions false ["SELECT 1"] ["exp1"]).count
      (EvalAction.computeGoldRecords ["SELECT 1"]) = 1 ∧
    (evaluate_test2_actions false ["SELECT 1"] ["exp1"]).count
      (EvalAction.writeGoldCache ["SELECT 1"]) = 1 :=
  c9_gold_cache_policy ["SELECT 1"] ["exp1"]

theorem error_query_indices_some (msgs : List String) (n : Nat) :
    error_query_indices (some msgs) n =
      (if msgs.isEmpty then []
       else (List.range n).filter fun j =>
         decide (msgs.getD j "" ≠ "") && decide (pyStrip (msgs.getD j "") ≠ "")) := rfl

theorem pyStrip_empty : pyStrip "" = "" := rfl

theorem pyStrip_eq_empty_of_all_whitespace (s : String)
    (h : s.data.all pyWhitespace = true) : pyStrip s = "" := by
  unfold pyStrip
  have h1 : s.data.dropWhile pyWhitespace = [] :=
    List.dropWhile_eq_nil_iff.mpr (fun x hx => List.all_eq_true.mp h x hx)
  rw [h1]
  rfl

theorem ne_empty_of_pyStrip_ne_empty (s : String) (h : pyStrip s ≠ "") : s ≠ "" :=
  fun he => h (by rw [he]; rfl)

/-- C10: the diagnostics reporter classifies index `i` as an execution error
iff the stored message is non-empty after stripping, while the test2
evaluator's error rate counts every message different from the empty
string; on a whitespace-only non-empty message the two disagree — it is
counted in the error rate but not classified as an execution error. -/
theorem c10_whitespace_error_message_divergence (msgs : List String) (i : Nat)
    (hi : i < msgs.length)
    (hws : (msgs.getD i "").data.all pyWhitespace = true)
    (hne : msgs.getD i "" ≠ "") :
    (∀ j, j < msgs.length →
      (j ∈ error_query_indices (some msgs) msgs.length ↔
        pyStrip (msgs.getD j "") ≠ "")) ∧
    error_rate (some msgs) =
      ((msgs.filter counted_in_error_rate).length : ℚ) / (msgs.length : ℚ) ∧
    counted_in_error_rate (msgs.getD i "") = true ∧
    i ∉ error_query_indices (some msgs) msgs.length ∧
    classified_as_error (msgs.getD i "") = false := by
  have hmsgsE : msgs.isEmpty = false := by
    cases msgs with
    | nil => exact absurd hi (by simp)
    | cons x xs => rfl
  have hmem : ∀ j, j < msgs.length →
      (j ∈ error_query_indices (some msgs) msgs.length ↔
        pyStrip (msgs.getD j "") ≠ "") := by
    intro j hj
    rw [error_query_indices_some, hmsgsE]
    simp only [Bool.false_eq_true, if_false, List.mem_filter, List.mem_range]
    constructor
    · intro hin
      have := hin.2
      simp only [Bool.and_eq_true, decide_eq_true_eq] at this
      exact this.2
    · intro hstrip
      refine ⟨hj, ?_⟩
      simp only [Bool.and_eq_true, decide_eq_true_eq]
      exact ⟨ne_empty_of_pyStrip_ne_empty _ hstrip, hstrip⟩
  have hstripI : pyStrip (msgs.getD i "") = "" :=
    pyStrip_eq_empty_of_all_whitespace _ hws
  refine ⟨hmem, ?_, ?_, ?_, ?_⟩
  · rw [error_rate_some, if_neg (by rw [hmsgsE]; exact Bool.false_ne_true)]
    rfl
  · exact decide_eq_true hne
  · intro hin
    exact ((hmem i hi).mp hin) hstripI
  · unfold classified_as_error
    rw [hstripI]
    simp

theorem c10_whitespace_error_message_divergence_witness :
    (0 : Nat) < ([" "] : List String).length ∧
    (([" "] : List String).getD 0 "").data.all pyWhitespace = true ∧
    ([" "] : List String).getD 0 "" ≠ "" ∧
    counted_in_error_rate (([" "] : List String).getD 0 "") = true ∧
    (0 : Nat) ∉ error_query_indices (some [" "]) ([" "] : List String).length ∧
    classified_as_error (([" "] : List String).getD 0 "") = false := by
  have h := c10_whitespace_error_message_divergence [" "] 0 (by decide)
    (by decide) (by decide)
  exact ⟨by decide, by decide, by decide, h.2.2.1, h.2.2.2.1, h.2.2.2.2⟩

theorem extract_quads_of_trainQuads
    (quads : List (List Nat × List Nat × List Nat × List Nat)) :
    extract_quads (quads.map fun q =>
      DatasetItem.trainQuad q.1 q.2.1 q.2.2.1 q.2.2.2) = some quads := by
  induction quads with
  | nil => rfl
  | cons q rest ih => simp [extract_quads, ih]

/-- C3: for split "test2" the dataloader selects `normal_collate_fn` (the
choice only tests split == "test"), so every test2 batch collates to a
5-tuple `Batch.normal`; `test2_inference` destructures a batch into three
values, which fails on every such batch. -/
theorem c3_test2_batches_fail_unpack (bos : Nat) (exs : List ExampleData)
    (hne : exs ≠ []) :
    collate_for_split "test2" (exs.map (t5_getitem bos "test2")) =
      normal_collate_fn (exs.map (t5_getitem bos "test2")) ∧
    (∃ e m di dt init,
      normal_collate_fn (exs.map (t5_getitem bos "test2")) =
        some (Batch.normal e m di dt init)) ∧
    (∀ b, normal_collate_fn (exs.map (t5_getitem bos "test2")) = some b →
      test2_inference_unpack b = none) := by
  have hitem : exs.map (t5_getitem bos "test2") =
      (exs.map fun ex => (ex.encoder_ids, bos :: ex.decoder_target_ids.dropLast,
        ex.decoder_target_ids, ([bos] : List Nat))).map fun q =>
          DatasetItem.trainQuad q.1 q.2.1 q.2.2.1 q.2.2.2 := by
    rw [List.map_map]
    apply List.map_congr_left
    intro ex _
    unfold t5_getitem
    rw [if_neg (by decide)]
    rfl
  have hcoll : normal_collate_fn (exs.map (t5_getitem bos "test2")) =
      some (Batch.normal
        (pad_sequence ((exs.map fun ex => (ex.encoder_ids,
          bos :: ex.decoder_target_ids.dropLast, ex.decoder_target_ids,
          ([bos] : List Nat))).map fun q => q.1))
        (encoder_mask_of (pad_sequence ((exs.map fun ex => (ex.encoder_ids,
          bos :: ex.decoder_target_ids.dropLast, ex.decoder_target_ids,
          ([bos] : List Nat))).map fun q => q.1)))
        (pad_sequence ((exs.map fun ex => (ex.encoder_ids,
          bos :: ex.decoder_target_ids.dropLast, ex.decoder_target_ids,
          ([bos] : List Nat))).map fun q => q.2.1))
        (pad_sequence ((exs.map fun ex => (ex.encoder_ids,
          bos :: ex.decoder_target_ids.dropLast, ex.decoder_target_ids,
          ([bos] : List Nat))).map fun q => q.2.2.1))
        ((exs.map fun ex => (ex.encoder_ids,
          bos :: ex.decoder_target_ids.dropLast, ex.decoder_target_ids,
          ([bos] : List Nat))).map fun q => q.2.2.2)) := by
    rw [hitem]
    unfold normal_collate_fn
    rw [extract_quads_of_trainQuads]
    rfl
  refine ⟨?_, ⟨_, _, _, _, _, hcoll⟩, ?_⟩
  · unfold collate_for_split
    rw [if_pos (by decide)]
  · intro b hb
    rw [hcoll] at hb
    cases hb
    rfl

theorem c3_test2_batches_fail_unpack_witness :
    ([⟨[5, 6], [7]⟩] : List ExampleData) ≠ [] ∧
    collate_for_split "test2"
      (([⟨[5, 6], [7]⟩] : List ExampleData).map (t5_getitem 1 "test2")) =
      some (Batch.normal [[5, 6]] [[1, 1]] [[1]] [[7]] [[1]]) ∧
    test2_inference_unpack (Batch.normal [[5, 6]] [[1, 1]] [[1]] [[7]] [[1]]) =
      none := by
  refine ⟨by decide, by decide, ?_⟩
  have h := c3_test2_batches_fail_unpack 1 ([⟨[5, 6], [7]⟩] : List ExampleData)
    (by decide)
  exact h.2.2 (Batch.normal [[5, 6]] [[1, 1]] [[1]] [[7]] [[1]]) (by decide)

end MlProject

